import Mathlib

/-!
Verification of the trackle-utils-esp-idf observable-value registry
(src/src/trackle_utils_properties.c, src/src/trackle_utils_notifications.c,
src/trackle_utils_notifications.h) against its natural-language specification.

The C sources are shallowly embedded: the global static arrays become explicit
state records threaded through the operations, 32-bit unsigned arithmetic is
modelled over Nat with explicit reduction modulo 2^32, and int32_t values are
modelled as Int.  Build-time capacity constants declared in the properties
header (which is not part of the sources) are taken as explicit parameters.
-/

/-! ## 32-bit unsigned arithmetic -/

/-- 2^32, the modulus of uint32_t arithmetic. -/
def U32_MOD : Nat := 4294967296

/-- UINT32_MAX, as used literally by isMsElapsed. -/
def UINT32_MAX : Nat := 4294967295

/-- C uint32_t addition: wraps modulo 2^32. -/
def u32add (a b : Nat) : Nat := (a + b) % U32_MOD

/-- C uint32_t subtraction: wraps modulo 2^32 (arguments are < 2^32). -/
def u32sub (a b : Nat) : Nat := (a + U32_MOD - b) % U32_MOD

/-- Embeds isMsElapsed (trackle_utils_properties.c lines 154-159): overflow-safe
elapsed-time check on the wrapping millisecond counter.  The branch for
now < start computes, in uint32 arithmetic, now + UINT32_MAX - start + 1. -/
def isMsElapsed (now start delay : Nat) : Bool :=
  if now < start then
    decide (u32add (u32sub (u32add now UINT32_MAX) start) 1 ≥ delay)
  else
    decide (now - start ≥ delay)

/-! ## Property data structures (trackle_utils_properties.c lines 24-63) -/

/-- Embeds Prop_t (lines 24-44).  The two C string pointers become Option
String: none models NULL; a string property is one whose setStringValue is
not none. -/
structure Prop_t where
  key : String
  changed : Bool
  sign : Bool
  lastPubValue : Int
  setValue : Int
  scale : Nat
  disabled : Bool
  numDecimals : Nat
  setToPublish : Bool
  lastPubStringValue : Option String
  setStringValue : Option String
  stringValueMaxLength : Nat
  debouncing : Bool
  latestSetTimeMs : Nat
  debounceDelayMs : Nat
deriving DecidableEq

/-- The zero-initialized Prop_t, as produced by the C static array initializer. -/
def Prop_t.zero : Prop_t :=
  { key := "", changed := false, sign := false, lastPubValue := 0, setValue := 0,
    scale := 0, disabled := false, numDecimals := 0, setToPublish := false,
    lastPubStringValue := none, setStringValue := none, stringValueMaxLength := 0,
    debouncing := false, latestSetTimeMs := 0, debounceDelayMs := 0 }

/-- Embeds PropGroup_t (lines 46-54).  The fixed array propsIndexes together
with its fill count propsWithin becomes a list of indexes. -/
structure PropGroup_t where
  onlyIfChanged : Bool
  propsIndexes : List Nat
  periodMs : Nat
  latestWakeTimeMs : Nat
deriving DecidableEq

/-- propsWithin: number of valid elements of propsIndexes. -/
def PropGroup_t.propsWithin (g : PropGroup_t) : Nat := g.propsIndexes.length

/-- The zero-initialized PropGroup_t, as produced by the static initializer. -/
def PropGroup_t.zero : PropGroup_t :=
  { onlyIfChanged := false, propsIndexes := [], periodMs := 0, latestWakeTimeMs := 0 }

/-- The module-level mutable state of trackle_utils_properties.c: the props and
propGroups arrays (only their created prefixes; the zero default stands for the
remaining zero-initialized slots) and the two configurable defaults. -/
structure PropsState where
  props : List Prop_t
  propGroups : List PropGroup_t
  defaultValue : Int
  defaultChanged : Bool
deriving DecidableEq

/-- The state at program start: empty registries, defaultValue = 0,
defaultChanged = true (lines 56-63). -/
def initialPropsState : PropsState :=
  { props := [], propGroups := [], defaultValue := 0, defaultChanged := true }

/-- Reads props[i], yielding the zero-initialized slot beyond the created
prefix, exactly as the C static array does. -/
def PropsState.propAt (st : PropsState) (i : Nat) : Prop_t :=
  st.props.getD i Prop_t.zero

/-- Reads propGroups[i], yielding the zero-initialized slot beyond the created
prefix, exactly as the C static array does. -/
def PropsState.propGroupAt (st : PropsState) (i : Nat) : PropGroup_t :=
  st.propGroups.getD i PropGroup_t.zero

/-! ## Wire-format rendering (trackle_utils_properties.c lines 101-134) -/

/-- The empty-string sentinel returned by key accessors on invalid handles. -/
def EMPTY_STRING : String := ""

/-- Wraps a string in double quotes, as the formatters do for string values. -/
def jsonQuote (s : String) : String := "\"" ++ s ++ "\""

/-- Rendering of an int32 through a %u / PRIu32 conversion: the value is
reinterpreted as uint32 (reduced modulo 2^32) and printed in decimal. -/
def u32str (v : Int) : String := toString ((v % (4294967296 : Int)).toNat)

/-- Rendering of an int32 through a %d / PRIi32 conversion: signed decimal. -/
def i32str (v : Int) : String := toString v

/-- Decimal digits of n, left-padded with zeros to width d. -/
def zeroPad (d n : Nat) : String :=
  let s := toString n
  String.mk (List.replicate (d - s.length) '0') ++ s

/-- Rounded division |a| / b to the nearest integer (ties away from zero),
signed by a.  Used to model printf %.*f output digits. -/
def roundDiv (a : Int) (b : Nat) : Int :=
  if b = 0 then 0
  else
    let q : Nat := (2 * a.natAbs + b) / (2 * b)
    if a < 0 then -(q : Int) else (q : Int)

/-- Models the %.*f rendering of (double)v / scale with numDecimals fractional
digits (lines 128-133 and notifications lines 88-93).  Exact decimal rounding
stands in for the double computation, which agrees on the values representable
here. -/
def fixedPointStr (v : Int) (scale numDecimals : Nat) : String :=
  let q := roundDiv (v * (10 : Int) ^ numDecimals) scale
  let sign := if q < 0 then "-" else ""
  let aq := q.natAbs
  if numDecimals = 0 then
    sign ++ toString aq
  else
    sign ++ toString (aq / 10 ^ numDecimals) ++ "." ++ zeroPad numDecimals (aq % 10 ^ numDecimals)

/-- The JSON member a property contributes to the batched payload: the body of
appendPropertyToJsonString (lines 113-133) without the comma logic.  A string
property renders quoted; scale == 1 renders PRIu32 when sign is set and PRIi32
otherwise (note: this is the branch orientation of the source); any other
scale renders fixed-point. -/
def propJsonEntry (p : Prop_t) : String :=
  match p.setStringValue with
  | some s => jsonQuote p.key ++ ":" ++ jsonQuote s
  | none =>
    if p.scale = 1 then
      if p.sign then jsonQuote p.key ++ ":" ++ u32str p.setValue
      else jsonQuote p.key ++ ":" ++ i32str p.setValue
    else
      jsonQuote p.key ++ ":" ++ fixedPointStr p.setValue p.scale p.numDecimals

/-- Embeds appendPropertyToJsonString (lines 106-134): appends the property's
JSON member to the buffer, preceded by a comma when the buffer already holds
more than the opening brace. -/
def appendPropertyToJsonString (jsonBuffer : String) (p : Prop_t) : String :=
  (if jsonBuffer.length > 1 then jsonBuffer ++ "," else jsonBuffer) ++ propJsonEntry p

/-- Embeds isSetValueEqualToLastSent (lines 136-144).  For a string property
the C code strcmp-compares the two buffers (both allocated at creation; the
getD default covers the NULL case the C code never reaches). -/
def isSetValueEqualToLastSent (p : Prop_t) : Bool :=
  match p.setStringValue with
  | some s => s == p.lastPubStringValue.getD ""
  | none => p.setValue == p.lastPubValue

/-- Embeds updateLastSentToSetValue (lines 146-152). -/
def updateLastSentToSetValue (p : Prop_t) : Prop_t :=
  match p.setStringValue with
  | some s => { p with lastPubStringValue := some s }
  | none => { p with lastPubValue := p.setValue }

/-! ## Registry operations (trackle_utils_properties.c lines 65-99, 277-504)

The capacity constants TRACKLE_MAX_PROPS_NUM, TRACKLE_MAX_PROPGROUPS_NUM and
TRACKLE_MAX_PROP_NAME_LENGTH are declared in trackle_utils_properties.h, which
is not among the sources.  Modelled from the spec: registry capacities and the
maximum key length are fixed build-time upper bounds; they are passed here as
explicit parameters (MAXPROPGROUPS, MAXPROPS, MAXNAMELEN).  The error sentinel
of the ID-returning constructors is modelled as -1, matching the notification
header's Trackle_NotificationID_ERROR. -/

/-- Embeds Trackle_PropGroup_create (lines 65-78). -/
def Trackle_PropGroup_create (MAXPROPGROUPS : Nat) (st : PropsState)
    (periodMs : Nat) (onlyIfChanged : Bool) : Int × PropsState :=
  if st.propGroups.length < MAXPROPGROUPS then
    ((st.propGroups.length : Int) + 1,
     { st with propGroups := st.propGroups ++
        [{ onlyIfChanged := onlyIfChanged, propsIndexes := [], periodMs := periodMs,
           latestWakeTimeMs := 0 }] })
  else (-1, st)

/-- Embeds Trackle_PropGroup_addProp (lines 80-99).  Note that the capacity
conjunct of the source reads propGroups[propGroupId] — the raw ID, not the
decremented index — so it inspects the slot after the addressed group (the C
&& chain only evaluates it once propGroupId is within [1, numPropGroupsCreated],
where it denotes a zero-initialized or later-created slot, or an out-of-bounds
read at propGroupId = TRACKLE_MAX_PROPGROUPS_NUM). -/
def Trackle_PropGroup_addProp (MAXPROPS : Nat) (st : PropsState)
    (propId propGroupId : Int) : Bool × PropsState :=
  let propIndex : Int := propId - 1
  let propGroupIndex : Int := propGroupId - 1
  if 0 ≤ propGroupIndex ∧ propGroupIndex < (st.propGroups.length : Int) ∧
     propIndex < (st.props.length : Int) ∧ 0 ≤ propIndex ∧
     (st.propGroupAt propGroupId.toNat).propsWithin < MAXPROPS - 1 then
    let g := st.propGroupAt propGroupIndex.toNat
    if propIndex.toNat ∈ g.propsIndexes then
      (false, st)
    else
      let g2 := { g with propsIndexes := g.propsIndexes ++ [propIndex.toNat] }
      (true, { st with propGroups := st.propGroups.set propGroupIndex.toNat g2 })
  else (false, st)

/-- Embeds Trackle_Props_getNumber (lines 277-280). -/
def Trackle_Props_getNumber (st : PropsState) : Nat := st.props.length

/-- Embeds Trackle_Prop_create (lines 282-320). -/
def Trackle_Prop_create (MAXPROPS MAXNAMELEN : Nat) (st : PropsState)
    (name : String) (scale : Nat) (numDecimals : Nat) (sign : Bool) :
    Int × PropsState :=
  if st.props.length < MAXPROPS then
    if st.props.any (fun p => p.key == name) then (-1, st)
    else if name.length < MAXNAMELEN then
      ((st.props.length : Int) + 1,
       { st with props := st.props ++
          [{ key := name, lastPubValue := st.defaultValue, setValue := st.defaultValue,
             scale := scale, sign := sign, numDecimals := numDecimals,
             disabled := false, changed := st.defaultChanged, setToPublish := false,
             lastPubStringValue := none, setStringValue := none,
             stringValueMaxLength := 0, debouncing := false, latestSetTimeMs := 0,
             debounceDelayMs := 0 }] })
    else (-1, st)
  else (-1, st)

/-- Embeds Trackle_Prop_createString (lines 322-366).  The two buffer
allocations are assumed to succeed (the malloc-failure early returns are not
modelled). -/
def Trackle_Prop_createString (MAXPROPS MAXNAMELEN : Nat) (st : PropsState)
    (name : String) (maxLength : Nat) : Int × PropsState :=
  if st.props.length < MAXPROPS then
    if st.props.any (fun p => p.key == name) then (-1, st)
    else if name.length < MAXNAMELEN then
      ((st.props.length : Int) + 1,
       { st with props := st.props ++
          [{ key := name, lastPubValue := st.defaultValue, setValue := st.defaultValue,
             scale := 1, sign := false, numDecimals := 0,
             disabled := false, changed := st.defaultChanged, setToPublish := false,
             lastPubStringValue := some "", setStringValue := some "",
             stringValueMaxLength := maxLength, debouncing := false,
             latestSetTimeMs := 0, debounceDelayMs := 0 }] })
    else (-1, st)
  else (-1, st)

/-- Embeds Trackle_Prop_update (lines 368-383).  nowMs stands for the
xTaskGetTickCount() * portTICK_PERIOD_MS read. -/
def Trackle_Prop_update (st : PropsState) (propID : Int) (newValue : Int)
    (nowMs : Nat) : Bool × PropsState :=
  let propIndex : Int := propID - 1
  if 0 ≤ propIndex ∧ propIndex < (st.props.length : Int) then
    let p := st.propAt propIndex.toNat
    if p.setValue ≠ newValue then
      let p2 := { p with debouncing := true, latestSetTimeMs := nowMs,
                         setValue := newValue }
      (true, { st with props := st.props.set propIndex.toNat p2 })
    else (false, st)
  else (false, st)

/-- Embeds Trackle_Prop_updateString (lines 385-401).  The strncpy plus forced
terminator truncates the new value at stringValueMaxLength. -/
def Trackle_Prop_updateString (st : PropsState) (propID : Int)
    (newValue : Option String) (nowMs : Nat) : Bool × PropsState :=
  let propIndex : Int := propID - 1
  if 0 ≤ propIndex ∧ propIndex < (st.props.length : Int) then
    let p := st.propAt propIndex.toNat
    match p.setStringValue, newValue with
    | some cur, some nv =>
      if cur ≠ nv then
        let p2 := { p with debouncing := true, latestSetTimeMs := nowMs,
                           setStringValue := some (nv.take p.stringValueMaxLength) }
        (true, { st with props := st.props.set propIndex.toNat p2 })
      else (false, st)
    | _, _ => (false, st)
  else (false, st)

/-- Embeds Trackle_Prop_setDisabled (lines 403-412). -/
def Trackle_Prop_setDisabled (st : PropsState) (propID : Int) (isDisabled : Bool) :
    Bool × PropsState :=
  let propIndex : Int := propID - 1
  if 0 ≤ propIndex ∧ propIndex < (st.props.length : Int) then
    let p2 := { st.propAt propIndex.toNat with disabled := isDisabled }
    (true, { st with props := st.props.set propIndex.toNat p2 })
  else (false, st)

/-- Embeds Trackle_Prop_setDebounceDelay (lines 414-423). -/
def Trackle_Prop_setDebounceDelay (st : PropsState) (propID : Int)
    (debounceDelayMs : Nat) : Bool × PropsState :=
  let propIndex : Int := propID - 1
  if 0 ≤ propIndex ∧ propIndex < (st.props.length : Int) then
    let p2 := { st.propAt propIndex.toNat with debounceDelayMs := debounceDelayMs }
    (true, { st with props := st.props.set propIndex.toNat p2 })
  else (false, st)

/-- Embeds Trackle_Prop_isDisabled (lines 425-433). -/
def Trackle_Prop_isDisabled (st : PropsState) (propID : Int) : Bool :=
  let propIndex : Int := propID - 1
  if 0 ≤ propIndex ∧ propIndex < (st.props.length : Int) then
    (st.propAt propIndex.toNat).disabled
  else false

/-- Embeds Trackle_Prop_getKey (lines 435-443). -/
def Trackle_Prop_getKey (st : PropsState) (propID : Int) : String :=
  let propIndex : Int := propID - 1
  if 0 ≤ propIndex ∧ propIndex < (st.props.length : Int) then
    (st.propAt propIndex.toNat).key
  else EMPTY_STRING

/-- Embeds Trackle_Prop_getValue (lines 445-453). -/
def Trackle_Prop_getValue (st : PropsState) (propID : Int) : Int :=
  let propIndex : Int := propID - 1
  if 0 ≤ propIndex ∧ propIndex < (st.props.length : Int) then
    (st.propAt propIndex.toNat).setValue
  else -1

/-- Embeds Trackle_Prop_getStringValue (lines 455-468): the boolean result of
the C function paired with the contents the strncpy would leave in the caller's
buffer (none when the function returns false and writes nothing). -/
def Trackle_Prop_getStringValue (st : PropsState) (propID : Int)
    (retValueMaxLen : Nat) : Bool × Option String :=
  let propIndex : Int := propID - 1
  if 0 ≤ propIndex ∧ propIndex < (st.props.length : Int) then
    match (st.propAt propIndex.toNat).setStringValue with
    | some s => (true, some (s.take retValueMaxLen))
    | none => (false, none)
  else (false, none)

/-- Embeds Trackle_Prop_getScale (lines 470-478). -/
def Trackle_Prop_getScale (st : PropsState) (propID : Int) : Nat :=
  let propIndex : Int := propID - 1
  if 0 ≤ propIndex ∧ propIndex < (st.props.length : Int) then
    (st.propAt propIndex.toNat).scale
  else 0

/-- Embeds Trackle_Prop_getNumberOfDecimals (lines 480-488). -/
def Trackle_Prop_getNumberOfDecimals (st : PropsState) (propID : Int) : Nat :=
  let propIndex : Int := propID - 1
  if 0 ≤ propIndex ∧ propIndex < (st.props.length : Int) then
    (st.propAt propIndex.toNat).numDecimals
  else 0

/-- Embeds Trackle_Prop_isSigned (lines 490-498). -/
def Trackle_Prop_isSigned (st : PropsState) (propID : Int) : Bool :=
  let propIndex : Int := propID - 1
  if 0 ≤ propIndex ∧ propIndex < (st.props.length : Int) then
    (st.propAt propIndex.toNat).sign
  else false

/-- Embeds Trackle_Prop_setDefaults (lines 500-504). -/
def Trackle_Prop_setDefaults (st : PropsState) (value : Int) (changed : Bool) :
    PropsState :=
  { st with defaultValue := value, defaultChanged := changed }

/-! ## Properties scheduler tick (trackle_utils_properties.c lines 161-250)

The infinite task loop is embedded as one tick function over explicit state:
a tick models one iteration of the for(;;) body in the trackleConnected case,
with nowMs the sampled clock and publishOk the boolean returned by the
trackleSyncStateSecure collaborator for this tick. -/

/-- Accumulator for the staging pass: the props array, the shared jsonBuffer
and the propsToPublish flag (all reset at the start of a tick except props). -/
structure TickAcc where
  props : List Prop_t
  jsonBuffer : String
  propsToPublish : Bool
deriving DecidableEq

/-- The debounce promotion of lines 203-207: a debouncing property whose
debounce delay has elapsed stops debouncing and becomes changed. -/
def promoteDebounce (nowMs : Nat) (p : Prop_t) : Prop_t :=
  if p.debouncing && isMsElapsed nowMs p.latestSetTimeMs p.debounceDelayMs then
    { p with debouncing := false, changed := true }
  else p

/-- The staging condition of line 210: not disabled, and changed-with-different
value, or the group publishes unconditionally, or this is the first run. -/
def stagePropCond (firstRun onlyIfChanged : Bool) (p : Prop_t) : Bool :=
  !p.disabled &&
    ((p.changed && !isSetValueEqualToLastSent p) || !onlyIfChanged || firstRun)

/-- The debounce-promotion write of lines 203-207: when the member is
debouncing and its debounce delay has elapsed, the slot is overwritten in
place with debouncing cleared and changed set; otherwise the array is left
alone. -/
def debStep (nowMs : Nat) (props : List Prop_t) (i : Nat) : List Prop_t :=
  if (props.getD i Prop_t.zero).debouncing &&
      isMsElapsed nowMs (props.getD i Prop_t.zero).latestSetTimeMs
        (props.getD i Prop_t.zero).debounceDelayMs then
    props.set i
      ({ props.getD i Prop_t.zero with debouncing := false, changed := true })
  else props

/-- Processing of one group member (loop body, lines 199-222): the debounce
write of debStep, then a re-read of the slot, and, when the staging condition
of line 210 holds on the re-read value, the member is appended to the JSON
buffer (opening the object on the first staged member), marked setToPublish
and its lastPub snapshot advanced to the set value. -/
def processMember (nowMs : Nat) (firstRun onlyIfChanged : Bool) (acc : TickAcc)
    (propIdx : Nat) : TickAcc :=
  if stagePropCond firstRun onlyIfChanged
      ((debStep nowMs acc.props propIdx).getD propIdx Prop_t.zero) then
    { props := (debStep nowMs acc.props propIdx).set propIdx
        (updateLastSentToSetValue
          ({ (debStep nowMs acc.props propIdx).getD propIdx Prop_t.zero with
             setToPublish := true })),
      jsonBuffer := appendPropertyToJsonString
        (if acc.propsToPublish then acc.jsonBuffer else acc.jsonBuffer ++ "\x7b")
        ((debStep nowMs acc.props propIdx).getD propIdx Prop_t.zero),
      propsToPublish := true }
  else { acc with props := debStep nowMs acc.props propIdx }

/-- The dueness condition of line 193: the group period has elapsed since
latestWakeTimeMs, or this is the first run. -/
def isGroupDue (nowMs : Nat) (firstRun : Bool) (g : PropGroup_t) : Bool :=
  isMsElapsed nowMs g.latestWakeTimeMs g.periodMs || firstRun

/-- The staging pass over all groups (lines 186-224): members of due groups are
processed in order into the shared accumulator. -/
def tickStageGroups (nowMs : Nat) (firstRun : Bool) (props : List Prop_t)
    (groups : List PropGroup_t) : TickAcc :=
  groups.foldl
    (fun acc g =>
      if isGroupDue nowMs firstRun g then
        g.propsIndexes.foldl (processMember nowMs firstRun g.onlyIfChanged) acc
      else acc)
    { props := props, jsonBuffer := "", propsToPublish := false }

/-- Result of one scheduler tick: the updated registries, the first-run latch,
and the payload handed to trackleSyncStateSecure (none when nothing staged). -/
structure TickResult where
  props : List Prop_t
  propGroups : List PropGroup_t
  firstRun : Bool
  jsonPublished : Option String
deriving DecidableEq

/-- Embeds one iteration of tracklePropertiesTaskCode's loop body (lines
176-249) with trackleConnected true.  Due groups advance latestWakeTimeMs to
nowMs (line 196; no member processing reads that field, so the advance is
applied as a map).  When anything was staged, the object is closed and
published: on success every setToPublish member has changed cleared and the
first_run latch drops; in all cases setToPublish is cleared and the buffer
reset. -/
def tracklePropertiesTick (nowMs : Nat) (publishOk : Bool) (firstRun : Bool)
    (props : List Prop_t) (groups : List PropGroup_t) : TickResult :=
  let acc := tickStageGroups nowMs firstRun props groups
  let groups2 := groups.map (fun g =>
    if isGroupDue nowMs firstRun g then { g with latestWakeTimeMs := nowMs } else g)
  if acc.propsToPublish then
    let json := acc.jsonBuffer ++ "\x7d"
    let props1 := if publishOk then
        acc.props.map (fun p => if p.setToPublish then { p with changed := false } else p)
      else acc.props
    let props2 := props1.map (fun p => { p with setToPublish := false })
    { props := props2, propGroups := groups2,
      firstRun := firstRun && !publishOk, jsonPublished := some json }
  else
    { props := acc.props, propGroups := groups2,
      firstRun := firstRun, jsonPublished := none }

/-! ## Notifications (trackle_utils_notifications.c, trackle_utils_notifications.h) -/

/-- TRACKLE_MAX_NOTIFICATIONS_NUM (header line 39). -/
def TRACKLE_MAX_NOTIFICATIONS_NUM : Nat := 20

/-- NOTIFICATION_NAME_LENGTH (source line 22). -/
def NOTIFICATION_NAME_LENGTH : Nat := 64

/-- NOTIFICATION_EVENT_LENGTH (source line 23). -/
def NOTIFICATION_EVENT_LENGTH : Nat := 64

/-- NOTIFICATION_FORMAT_LENGTH (source line 24). -/
def NOTIFICATION_FORMAT_LENGTH : Nat := 128

/-- Embeds Notification_t (source lines 26-40).  The valueMap pointer becomes
an optional list of optional strings (none models a NULL entry); valueMapSize
is kept as its own field, exactly as in the source. -/
structure Notification_t where
  key : String
  event : String
  format : String
  changed : Bool
  sign : Bool
  value : Int
  scale : Nat
  numDecimals : Nat
  level : Nat
  valueMap : Option (List (Option String))
  valueMapSize : Nat
deriving DecidableEq

/-- The zero-initialized Notification_t of the static array initializer. -/
def Notification_t.zero : Notification_t :=
  { key := "", event := "", format := "", changed := false, sign := false,
    value := 0, scale := 0, numDecimals := 0, level := 0,
    valueMap := none, valueMapSize := 0 }

/-- The module-level state of trackle_utils_notifications.c: the created
prefix of the notifications array. -/
structure NotificationsState where
  notifications : List Notification_t
deriving DecidableEq

/-- The state at program start: empty registry. -/
def initialNotificationsState : NotificationsState := { notifications := [] }

/-- Reads notifications[i], with the zero slot beyond the created prefix. -/
def NotificationsState.notificationAt (st : NotificationsState) (i : Nat) :
    Notification_t :=
  st.notifications.getD i Notification_t.zero

/-- Embeds the valueBuffer computation of makeMessageStringFromNotification
(source lines 45-93).  A mapped in-range value renders as the quoted mapped
string via snprintf into a 32-byte buffer (hence the truncation to 31
characters); a NULL mapped entry falls back to %d / %u on the sign flag; with
no applicable map, scale == 1 renders %d / %u on the sign flag and any other
scale renders fixed-point. -/
def makeMessageValueString (n : Notification_t) : String :=
  if n.valueMap ≠ none ∧ 0 < n.valueMapSize ∧ 0 ≤ n.value ∧
     n.value < (n.valueMapSize : Int) then
    match (n.valueMap.getD []).getD n.value.toNat none with
    | some mappedString => (jsonQuote mappedString).take 31
    | none => if n.sign then i32str n.value else u32str n.value
  else if n.scale = 1 then
    if n.sign then i32str n.value else u32str n.value
  else
    fixedPointStr n.value n.scale n.numDecimals

/-- Embeds Trackle_Notification_createWithValueMap (source lines 161-209). -/
def Trackle_Notification_createWithValueMap (st : NotificationsState)
    (name eventName format : String) (scale : Nat) (numDecimals : Nat)
    (sign : Bool) (valueMap : Option (List (Option String)))
    (valueMapSize : Nat) : Int × NotificationsState :=
  if st.notifications.length < TRACKLE_MAX_NOTIFICATIONS_NUM then
    if st.notifications.any (fun n => n.key == name) then (-1, st)
    else if name.length < NOTIFICATION_NAME_LENGTH then
      if eventName.length < NOTIFICATION_EVENT_LENGTH then
        if format.length < NOTIFICATION_FORMAT_LENGTH then
          ((st.notifications.length : Int) + 1,
           { notifications := st.notifications ++
              [{ key := name, event := eventName, format := format, value := -1,
                 scale := scale, sign := sign, numDecimals := numDecimals,
                 changed := false, level := 0, valueMap := valueMap,
                 valueMapSize := valueMapSize }] })
        else (-1, st)
      else (-1, st)
    else (-1, st)
  else (-1, st)

/-- Embeds Trackle_Notification_create (source lines 156-159): delegates with
no value map. -/
def Trackle_Notification_create (st : NotificationsState)
    (name eventName format : String) (scale : Nat) (numDecimals : Nat)
    (sign : Bool) : Int × NotificationsState :=
  Trackle_Notification_createWithValueMap st name eventName format scale
    numDecimals sign none 0

/-- Embeds Trackle_Notification_update (source lines 211-225): any valid
handle returns true; the entry mutates only when the level differs. -/
def Trackle_Notification_update (st : NotificationsState)
    (notificationID : Int) (newLevel : Nat) (value : Int) :
    Bool × NotificationsState :=
  let notificationIndex : Int := notificationID - 1
  if 0 ≤ notificationIndex ∧ notificationIndex < (st.notifications.length : Int) then
    let n := st.notificationAt notificationIndex.toNat
    if n.level ≠ newLevel then
      let n2 := { n with changed := true, value := value, level := newLevel }
      (true, { notifications := st.notifications.set notificationIndex.toNat n2 })
    else (true, st)
  else (false, st)

/-- Embeds Trackle_Notification_getKey (source lines 227-235). -/
def Trackle_Notification_getKey (st : NotificationsState)
    (notificationID : Int) : String :=
  let notificationIndex : Int := notificationID - 1
  if 0 ≤ notificationIndex ∧ notificationIndex < (st.notifications.length : Int) then
    (st.notificationAt notificationIndex.toNat).key
  else EMPTY_STRING

/-- Embeds Trackle_Notification_getLevel (source lines 237-245): the uint8
level widened to int32, or -1 on an invalid handle. -/
def Trackle_Notification_getLevel (st : NotificationsState)
    (notificationID : Int) : Int :=
  let notificationIndex : Int := notificationID - 1
  if 0 ≤ notificationIndex ∧ notificationIndex < (st.notifications.length : Int) then
    ((st.notificationAt notificationIndex.toNat).level : Int)
  else -1

/-- Embeds Trackle_Notification_getValue (source lines 247-255). -/
def Trackle_Notification_getValue (st : NotificationsState)
    (notificationID : Int) : Int :=
  let notificationIndex : Int := notificationID - 1
  if 0 ≤ notificationIndex ∧ notificationIndex < (st.notifications.length : Int) then
    (st.notificationAt notificationIndex.toNat).value
  else -1

/-! ## Claim-side characterizations and example states -/

/-- The buffer-and-flag effect of staging one member, as processMember performs
it: open the object on the first staged member, then comma-append. -/
def pushEntry (bp : String × Bool) (e : String) : String × Bool :=
  let buf := if bp.2 then bp.1 else bp.1 ++ "\x7b"
  ((if buf.length > 1 then buf ++ "," else buf) ++ e, true)

/-- Claim side (C5): the JSON member contributed by member index i, computed
on the pre-tick props after this tick's debounce promotion of that member. -/
def claimMemberEntry (nowMs : Nat) (props : List Prop_t) (i : Nat) : String :=
  propJsonEntry (promoteDebounce nowMs (props.getD i Prop_t.zero))

/-- Claim side (C5): member i of a group with the given policy is staged
exactly when, after debounce promotion, it is not disabled and (its changed
flag is set with a value differing from the last published one, or the policy
is always-publish, or this is the first tick). -/
def claimStagesMember (nowMs : Nat) (firstRun onlyIfChanged : Bool)
    (props : List Prop_t) (i : Nat) : Bool :=
  stagePropCond firstRun onlyIfChanged (promoteDebounce nowMs (props.getD i Prop_t.zero))

/-- Claim side (C5): the member indexes of all due groups, in scheduler
order. -/
def dueMemberIndexes (nowMs : Nat) (firstRun : Bool)
    (groups : List PropGroup_t) : List Nat :=
  (groups.filter (fun g => isGroupDue nowMs firstRun g)).flatMap
    (fun g => g.propsIndexes)

/-- Claim side (C5): the JSON members staged in one tick, computed directly on
the pre-tick state: for each due group, its staged members in order. -/
def claimStagedEntries (nowMs : Nat) (firstRun : Bool) (props : List Prop_t)
    (groups : List PropGroup_t) : List String :=
  (groups.filter (fun g => isGroupDue nowMs firstRun g)).flatMap (fun g =>
    (g.propsIndexes.filter
        (fun i => claimStagesMember nowMs firstRun g.onlyIfChanged props i)).map
      (fun i => claimMemberEntry nowMs props i))

/-- Comma-separated concatenation of JSON members. -/
def joinCommaSep : List String → String
  | [] => ""
  | [e] => e
  | e :: f :: rest => e ++ "," ++ joinCommaSep (f :: rest)

/-- A changed integer property (set value 5, last published 0) used to
evaluate the failed-publish retry behaviour. -/
def retryExProp : Prop_t :=
  { Prop_t.zero with
    key := "p", changed := true, scale := 1,
    setValue := 5, lastPubValue := 0 }

/-- A due only-if-changed group containing only the property above. -/
def retryExGroup : PropGroup_t :=
  { onlyIfChanged := true, propsIndexes := [0], periodMs := 1000,
    latestWakeTimeMs := 0 }

/-- Registry state reached from the initial state by four property creations,
two group creations and three successful member additions (capacities
passed: 4 properties, 4 groups, key length 32).  Group ID 1 stays empty;
group ID 2 receives properties 2, 3 and 4. -/
def addPropExState : PropsState :=
  let s1 := (Trackle_Prop_create 4 32 initialPropsState "a" 1 0 false).2
  let s2 := (Trackle_Prop_create 4 32 s1 "b" 1 0 false).2
  let s3 := (Trackle_Prop_create 4 32 s2 "c" 1 0 false).2
  let s4 := (Trackle_Prop_create 4 32 s3 "d" 1 0 false).2
  let s5 := (Trackle_PropGroup_create 4 s4 1000 true).2
  let s6 := (Trackle_PropGroup_create 4 s5 1000 true).2
  let s7 := (Trackle_PropGroup_addProp 4 s6 2 2).2
  let s8 := (Trackle_PropGroup_addProp 4 s7 3 2).2
  (Trackle_PropGroup_addProp 4 s8 4 2).2

/-- A two-property state (one numeric, one string) for exercising the no-op
update paths at concrete inputs. -/
def updateExState : PropsState :=
  { props := [ { Prop_t.zero with
                 key := "a", scale := 1, setValue := 7 },
               { Prop_t.zero with
                 key := "s", scale := 1,
                 setStringValue := some "x", lastPubStringValue := some "",
                 stringValueMaxLength := 8 } ],
    propGroups := [], defaultValue := 0, defaultChanged := true }

/-- A one-notification state with level 3 for exercising the equal-level
update path at a concrete input. -/
def notifExState : NotificationsState :=
  { notifications := [ { Notification_t.zero with
                         key := "n", event := "e",
                         format := "f", scale := 1, level := 3, value := 9 } ] }

/-- Three registered properties for the batch-composition evaluation: two
changed (one integer, one fixed-point) and one unchanged. -/
def batchExProps : List Prop_t :=
  [ { Prop_t.zero with
      key := "speed", changed := true, scale := 1,
      setValue := 120, lastPubValue := 0 },
    { Prop_t.zero with
      key := "temp", changed := true, scale := 100,
      numDecimals := 2, setValue := 8750, lastPubValue := 0 },
    { Prop_t.zero with
      key := "idle", changed := false, scale := 1,
      setValue := 1, lastPubValue := 1 } ]

/-- Two groups over the properties above with non-overlapping members, both
due at 2000 ms. -/
def batchExGroups : List PropGroup_t :=
  [ { onlyIfChanged := true, propsIndexes := [0], periodMs := 1000,
      latestWakeTimeMs := 0 },
    { onlyIfChanged := true, propsIndexes := [1, 2], periodMs := 2000,
      latestWakeTimeMs := 0 } ]

/-- A notification with an attached one-entry value map whose current value 0
maps to the string "on". -/
def mapExNotification : Notification_t :=
  { Notification_t.zero with
    scale := 1, value := 0, valueMap := some [some "on"], valueMapSize := 1 }

/-- A notification whose value map is attached and in range but maps the
current value to a NULL entry, with a non-unit scale. -/
def nullMapEntryExNotification : Notification_t :=
  { Notification_t.zero with
    scale := 100, numDecimals := 2, sign := true,
    value := 0, valueMap := some [none], valueMapSize := 1 }

/-! ## Claim C4 -/

/-- C4: for all 32-bit values now, start, delay, isMsElapsed(now, start, delay)
returns true exactly when (now - start) mod 2^32 (encoded over Nat as
(now + 2^32 - start) mod 2^32) is at least delay; the wrapped case now < start
is covered by the same equivalence. -/
theorem isMsElapsed_wraparound_correct (now start delay : Nat)
    (hn : now < U32_MOD) (hs : start < U32_MOD) (hd : delay < U32_MOD) :
    isMsElapsed now start delay = true ↔ (now + U32_MOD - start) % U32_MOD ≥ delay := by
  unfold isMsElapsed u32add u32sub UINT32_MAX U32_MOD
  unfold U32_MOD at hn hs hd
  by_cases h : now < start
  · simp only [h, if_true, decide_eq_true_eq]
    omega
  · simp only [h, if_false, decide_eq_true_eq]
    omega

/-- Witness for C4 at a wrapped input: the counter rolled over (now < start),
and the predicate still reports the elapsed delay. -/
theorem isMsElapsed_wraparound_correct_witness :
    isMsElapsed 5 4294967290 10 = true :=
  (isMsElapsed_wraparound_correct 5 4294967290 10 (by decide) (by decide)
    (by decide)).mpr (by decide)

/-! ## Claim C2 -/

/-- C2 (code evaluated at the failing input): with scale 1, the batch
formatter renders a property whose sign flag is true (created as int32)
unsigned — set value -1 prints as 4294967295 — and a property whose sign flag
is false signed, while the notifications formatter renders the same two
configurations the other way around, following the documented meaning of the
sign flag. -/
theorem propJsonEntry_sign_branches_eval :
    propJsonEntry { Prop_t.zero with
      key := "p", scale := 1, sign := true, setValue := -1 } = "\"p\":4294967295" ∧
    propJsonEntry { Prop_t.zero with
      key := "p", scale := 1, sign := false, setValue := -1 } = "\"p\":-1" ∧
    makeMessageValueString { Notification_t.zero with
      scale := 1, sign := true, value := -1 } = "-1" ∧
    makeMessageValueString { Notification_t.zero with
      scale := 1, sign := false, value := -1 } = "4294967295" := by
  exact ⟨rfl, rfl, rfl, rfl⟩

/-! ## Claim C3 -/

/-- C3 (code evaluated at the failing input): with property capacity 4,
adding property 1 to group 1 returns false and changes nothing although both
handles are valid, the addressed group (index 0) is empty and does not
contain the property — because the capacity conjunct reads the propsWithin of
propGroups[propGroupId], the slot of the full neighbouring group. -/
theorem addProp_checks_wrong_group_eval :
    addPropExState.props.length = 4 ∧
    addPropExState.propGroups.length = 2 ∧
    (addPropExState.propGroupAt 0).propsIndexes = [] ∧
    (addPropExState.propGroupAt 1).propsIndexes = [1, 2, 3] ∧
    Trackle_PropGroup_addProp 4 addPropExState 1 1 = (false, addPropExState) := by
  exact ⟨by decide, by decide, by decide, by decide, by decide⟩

/-! ## Claim C7 -/

/-- C7: every accessor called with an out-of-range or never-issued handle
returns its documented sentinel without any other effect: empty string for
keys, -1 for the value and level accessors, false for the boolean accessors,
and 0 (the numeric reading of C's false) for scale and number of decimals. -/
theorem invalid_handle_accessor_sentinels (st : PropsState)
    (nst : NotificationsState) (id nid : Int)
    (h : id < 1 ∨ (st.props.length : Int) < id)
    (hn : nid < 1 ∨ (nst.notifications.length : Int) < nid) :
    Trackle_Prop_getKey st id = "" ∧
    Trackle_Prop_getValue st id = -1 ∧
    Trackle_Prop_getScale st id = 0 ∧
    Trackle_Prop_getNumberOfDecimals st id = 0 ∧
    Trackle_Prop_isSigned st id = false ∧
    Trackle_Prop_isDisabled st id = false ∧
    (∀ len : Nat, Trackle_Prop_getStringValue st id len = (false, none)) ∧
    Trackle_Notification_getKey nst nid = "" ∧
    Trackle_Notification_getLevel nst nid = -1 ∧
    Trackle_Notification_getValue nst nid = -1 := by
  have hp : ¬(0 ≤ id - 1 ∧ id - 1 < (st.props.length : Int)) := by omega
  have hq : ¬(0 ≤ nid - 1 ∧ nid - 1 < (nst.notifications.length : Int)) := by omega
  refine ⟨?_, ?_, ?_, ?_, ?_, ?_, ?_, ?_, ?_, ?_⟩
  · simp only [Trackle_Prop_getKey]; rw [if_neg hp]; rfl
  · simp only [Trackle_Prop_getValue]; rw [if_neg hp]
  · simp only [Trackle_Prop_getScale]; rw [if_neg hp]
  · simp only [Trackle_Prop_getNumberOfDecimals]; rw [if_neg hp]
  · simp only [Trackle_Prop_isSigned]; rw [if_neg hp]
  · simp only [Trackle_Prop_isDisabled]; rw [if_neg hp]
  · intro len; simp only [Trackle_Prop_getStringValue]; rw [if_neg hp]
  · simp only [Trackle_Notification_getKey]; rw [if_neg hq]; rfl
  · simp only [Trackle_Notification_getLevel]; rw [if_neg hq]
  · simp only [Trackle_Notification_getValue]; rw [if_neg hq]

/-- Witness for C7: handle 0 was never issued on the initial registries. -/
theorem invalid_handle_accessor_sentinels_witness :
    Trackle_Prop_getKey initialPropsState 0 = "" ∧
    Trackle_Prop_getScale initialPropsState 0 = 0 ∧
    Trackle_Notification_getLevel initialNotificationsState 0 = -1 :=
  ⟨(invalid_handle_accessor_sentinels initialPropsState initialNotificationsState 0 0
      (Or.inl (by decide)) (Or.inl (by decide))).1,
   (invalid_handle_accessor_sentinels initialPropsState initialNotificationsState 0 0
      (Or.inl (by decide)) (Or.inl (by decide))).2.2.1,
   (invalid_handle_accessor_sentinels initialPropsState initialNotificationsState 0 0
      (Or.inl (by decide)) (Or.inl (by decide))).2.2.2.2.2.2.2.2.1⟩

/-! ## Claim C8 -/

/-- C8: an update that carries a value equal to the stored one is a complete
no-op on a valid handle: the call returns false and the whole state — changed
flag, debouncing flag, latest-set timestamp, stored value — is untouched, for
the numeric and the string update alike. -/
theorem update_equal_value_noop (st : PropsState) (propID : Int) (nowMs : Nat)
    (newValue : Int) (s : String)
    (hvalid : 1 ≤ propID ∧ propID ≤ (st.props.length : Int)) :
    ((st.propAt (propID - 1).toNat).setValue = newValue →
      Trackle_Prop_update st propID newValue nowMs = (false, st)) ∧
    ((st.propAt (propID - 1).toNat).setStringValue = some s →
      Trackle_Prop_updateString st propID (some s) nowMs = (false, st)) := by
  have hcond : 0 ≤ propID - 1 ∧ propID - 1 < (st.props.length : Int) := by omega
  constructor
  · intro heq
    simp only [Trackle_Prop_update]
    rw [if_pos hcond]
    rw [if_neg (not_ne_iff.mpr heq)]
  · intro heq
    simp only [Trackle_Prop_updateString]
    rw [if_pos hcond]
    rw [heq]
    simp

/-- Witness for C8 on a concrete two-property state: repeating the stored
numeric value 7 and the stored string value "x" both leave the state as is. -/
theorem update_equal_value_noop_witness :
    Trackle_Prop_update updateExState 1 7 123 = (false, updateExState) ∧
    Trackle_Prop_updateString updateExState 2 (some "x") 123 = (false, updateExState) :=
  ⟨(update_equal_value_noop updateExState 1 123 7 "x" (by decide)).1 (by decide),
   (update_equal_value_noop updateExState 2 123 0 "x" (by decide)).2 (by decide)⟩

/-! ## Claim C10 -/

/-- C10: Trackle_Notification_update returns true on every valid 1-based
handle, and when the new level equals the stored one no field is mutated, so
a true return does not imply that a publication was triggered. -/
theorem notification_update_true_equal_level_noop (nst : NotificationsState)
    (id : Int) (newLevel : Nat) (value : Int)
    (hvalid : 1 ≤ id ∧ id ≤ (nst.notifications.length : Int)) :
    (Trackle_Notification_update nst id newLevel value).1 = true ∧
    ((nst.notificationAt (id - 1).toNat).level = newLevel →
      Trackle_Notification_update nst id newLevel value = (true, nst)) := by
  have hcond : 0 ≤ id - 1 ∧ id - 1 < (nst.notifications.length : Int) := by omega
  constructor
  · simp only [Trackle_Notification_update]
    rw [if_pos hcond]
    split <;> rfl
  · intro heq
    simp only [Trackle_Notification_update]
    rw [if_pos hcond]
    rw [if_neg (not_ne_iff.mpr heq)]

/-- Witness for C10 on a concrete one-notification state at level 3: updating
to level 3 with a fresh value returns true and mutates nothing. -/
theorem notification_update_true_equal_level_noop_witness :
    Trackle_Notification_update notifExState 1 3 50 = (true, notifExState) :=
  (notification_update_true_equal_level_noop notifExState 1 3 50 (by decide)).2 (by decide)

/-! ## Claim C6 -/

/-- Reading the element just appended at the end of a list. -/
theorem getD_concat_self {α : Type} (l : List α) (x d : α) :
    (l ++ [x]).getD l.length d = x := by
  rw [List.getD_append_right _ _ _ _ (Nat.le_refl _)]
  simp

/-- C6 (counterexample): in the initial configuration the configurable
changed default is true, yet a successfully created notification starts with
changed = false — notification creation ignores the configurable default. -/
theorem notification_create_ignores_changed_default :
    initialPropsState.defaultChanged = true ∧
    0 < (Trackle_Notification_createWithValueMap initialNotificationsState
          "a" "e" "f" 1 0 false none 0).1 ∧
    ((Trackle_Notification_createWithValueMap initialNotificationsState
          "a" "e" "f" 1 0 false none 0).2.notificationAt 0).changed = false := by
  exact ⟨rfl, by decide, by decide⟩

/-- C6 (amended): a successful property creation (numeric or string)
initializes the stored and last-published values to the configurable default
value and the changed flag to the configurable changed default — true in the
initial configuration, so such a property is published at least once; a
successful notification creation instead always initializes value to the
sentinel -1, changed to false and level to 0, ignoring the configurable
defaults. -/
theorem create_initial_entry_amended (MAXPROPS MAXNAMELEN : Nat)
    (st : PropsState) (nst : NotificationsState)
    (name eventName format : String) (scale numDecimals maxLength : Nat)
    (sign : Bool) (valueMap : Option (List (Option String)))
    (valueMapSize : Nat) :
    (0 < (Trackle_Prop_create MAXPROPS MAXNAMELEN st name scale numDecimals sign).1 →
      ((Trackle_Prop_create MAXPROPS MAXNAMELEN st name scale numDecimals
          sign).2.propAt st.props.length).setValue = st.defaultValue ∧
      ((Trackle_Prop_create MAXPROPS MAXNAMELEN st name scale numDecimals
          sign).2.propAt st.props.length).lastPubValue = st.defaultValue ∧
      ((Trackle_Prop_create MAXPROPS MAXNAMELEN st name scale numDecimals
          sign).2.propAt st.props.length).changed = st.defaultChanged) ∧
    (0 < (Trackle_Prop_createString MAXPROPS MAXNAMELEN st name maxLength).1 →
      ((Trackle_Prop_createString MAXPROPS MAXNAMELEN st name
          maxLength).2.propAt st.props.length).setValue = st.defaultValue ∧
      ((Trackle_Prop_createString MAXPROPS MAXNAMELEN st name
          maxLength).2.propAt st.props.length).lastPubValue = st.defaultValue ∧
      ((Trackle_Prop_createString MAXPROPS MAXNAMELEN st name
          maxLength).2.propAt st.props.length).changed = st.defaultChanged) ∧
    (0 < (Trackle_Notification_createWithValueMap nst name eventName format
            scale numDecimals sign valueMap valueMapSize).1 →
      ((Trackle_Notification_createWithValueMap nst name eventName format
          scale numDecimals sign valueMap
          valueMapSize).2.notificationAt nst.notifications.length).value = -1 ∧
      ((Trackle_Notification_createWithValueMap nst name eventName format
          scale numDecimals sign valueMap
          valueMapSize).2.notificationAt nst.notifications.length).changed = false ∧
      ((Trackle_Notification_createWithValueMap nst name eventName format
          scale numDecimals sign valueMap
          valueMapSize).2.notificationAt nst.notifications.length).level = 0) ∧
    initialPropsState.defaultChanged = true := by
  refine ⟨?_, ?_, ?_, rfl⟩
  · intro hsucc
    simp only [Trackle_Prop_create] at hsucc ⊢
    by_cases h1 : st.props.length < MAXPROPS
    · rw [if_pos h1] at hsucc ⊢
      by_cases h2 : st.props.any (fun p => p.key == name)
      · rw [if_pos h2] at hsucc; norm_num at hsucc
      · rw [if_neg h2] at hsucc ⊢
        by_cases h3 : name.length < MAXNAMELEN
        · rw [if_pos h3]
          simp [PropsState.propAt, getD_concat_self]
        · rw [if_neg h3] at hsucc; norm_num at hsucc
    · rw [if_neg h1] at hsucc; norm_num at hsucc
  · intro hsucc
    simp only [Trackle_Prop_createString] at hsucc ⊢
    by_cases h1 : st.props.length < MAXPROPS
    · rw [if_pos h1] at hsucc ⊢
      by_cases h2 : st.props.any (fun p => p.key == name)
      · rw [if_pos h2] at hsucc; norm_num at hsucc
      · rw [if_neg h2] at hsucc ⊢
        by_cases h3 : name.length < MAXNAMELEN
        · rw [if_pos h3]
          simp [PropsState.propAt, getD_concat_self]
        · rw [if_neg h3] at hsucc; norm_num at hsucc
    · rw [if_neg h1] at hsucc; norm_num at hsucc
  · intro hsucc
    simp only [Trackle_Notification_createWithValueMap] at hsucc ⊢
    by_cases h1 : nst.notifications.length < TRACKLE_MAX_NOTIFICATIONS_NUM
    · rw [if_pos h1] at hsucc ⊢
      by_cases h2 : nst.notifications.any (fun n => n.key == name)
      · rw [if_pos h2] at hsucc; norm_num at hsucc
      · rw [if_neg h2] at hsucc ⊢
        by_cases h3 : name.length < NOTIFICATION_NAME_LENGTH
        · rw [if_pos h3] at hsucc ⊢
          by_cases h4 : eventName.length < NOTIFICATION_EVENT_LENGTH
          · rw [if_pos h4] at hsucc ⊢
            by_cases h5 : format.length < NOTIFICATION_FORMAT_LENGTH
            · rw [if_pos h5]
              simp [NotificationsState.notificationAt, getD_concat_self]
            · rw [if_neg h5] at hsucc; norm_num at hsucc
          · rw [if_neg h4] at hsucc; norm_num at hsucc
        · rw [if_neg h3] at hsucc; norm_num at hsucc
    · rw [if_neg h1] at hsucc; norm_num at hsucc

/-- Witness for C6 (amended) on the initial states: the first created
property starts changed, the first created notification does not. -/
theorem create_initial_entry_amended_witness :
    ((Trackle_Prop_create 4 32 initialPropsState "a" 1 0 false).2.propAt 0).changed = true ∧
    ((Trackle_Notification_createWithValueMap initialNotificationsState
        "a" "e" "f" 1 0 false none 0).2.notificationAt 0).changed = false :=
  ⟨(((create_initial_entry_amended 4 32 initialPropsState initialNotificationsState
        "a" "e" "f" 1 0 8 false none 0).1 (by decide)).2.2).trans rfl,
   ((create_initial_entry_amended 4 32 initialPropsState initialNotificationsState
        "a" "e" "f" 1 0 8 false none 0).2.2.1 (by decide)).2.1⟩

/-! ## Claim C9 -/

/-- C9 (counterexample): a notification with an attached map, in-range value
0 mapped to a NULL entry, and scale 100 with two decimals renders as the
plain integer 0, not as the fixed-point rendering 0.00 that scale-following
numeric rendering would produce. -/
theorem valueMap_null_entry_ignores_scale :
    makeMessageValueString nullMapEntryExNotification = "0" ∧
    fixedPointStr nullMapEntryExNotification.value nullMapEntryExNotification.scale
      nullMapEntryExNotification.numDecimals = "0.00" := by
  exact ⟨rfl, rfl⟩

/-- C9 (amended): when a value map is attached with positive size and the
current value lies in [0, mapSize), a non-NULL mapped entry renders as the
mapped string wrapped in double quotes (truncated to the 31 characters that
fit the value buffer), while a NULL mapped entry falls back to plain integer
rendering by the sign flag regardless of scale; when the value is out of
range or no map is attached, the value renders numerically following scale:
signed or unsigned integer per the sign flag when scale is 1, fixed-point
with numDecimals fractional digits otherwise. -/
theorem makeMessageValueString_characterization (n : Notification_t)
    (vm : List (Option String)) (s : String) :
    (n.valueMap = some vm → 0 < n.valueMapSize → 0 ≤ n.value →
      n.value < (n.valueMapSize : Int) → vm.getD n.value.toNat none = some s →
      makeMessageValueString n = (jsonQuote s).take 31) ∧
    (n.valueMap = some vm → 0 < n.valueMapSize → 0 ≤ n.value →
      n.value < (n.valueMapSize : Int) → vm.getD n.value.toNat none = none →
      makeMessageValueString n =
        (if n.sign then i32str n.value else u32str n.value)) ∧
    (n.valueMap = none →
      makeMessageValueString n =
        (if n.scale = 1 then (if n.sign then i32str n.value else u32str n.value)
         else fixedPointStr n.value n.scale n.numDecimals)) ∧
    (¬(0 < n.valueMapSize ∧ 0 ≤ n.value ∧ n.value < (n.valueMapSize : Int)) →
      makeMessageValueString n =
        (if n.scale = 1 then (if n.sign then i32str n.value else u32str n.value)
         else fixedPointStr n.value n.scale n.numDecimals)) := by
  refine ⟨?_, ?_, ?_, ?_⟩
  · intro hm h1 h2 h3 hentry
    simp only [makeMessageValueString]
    rw [if_pos ⟨by simp [hm], h1, h2, h3⟩]
    rw [hm]
    simp only [Option.getD_some]
    rw [hentry]
  · intro hm h1 h2 h3 hentry
    simp only [makeMessageValueString]
    rw [if_pos ⟨by simp [hm], h1, h2, h3⟩]
    rw [hm]
    simp only [Option.getD_some]
    rw [hentry]
  · intro hm
    simp only [makeMessageValueString]
    rw [if_neg (by simp [hm])]
  · intro hc
    simp only [makeMessageValueString]
    rw [if_neg (fun hfull => hc hfull.2)]

set_option maxRecDepth 4096 in
/-- Witness for C9 (amended): a mapped in-range value renders quoted. -/
theorem makeMessageValueString_characterization_witness :
    makeMessageValueString mapExNotification = "\"on\"" :=
  ((makeMessageValueString_characterization mapExNotification [some "on"] "on").1
      rfl (by decide) (by decide) (by decide) rfl).trans (by decide)

/-! ## Claim C1 -/

/-- C1 (code evaluated at the failing scenario): the changed property of a
due only-if-changed group is staged and published, the publish fails, and the
changed flag does remain true — but lastPubValue was snapshotted to the set
value at staging time, so the next due cycle of the group stages nothing: the
identical payload is not rebuilt and the property is not retried. -/
theorem failed_publish_not_retried_eval :
    (tracklePropertiesTick 1000 false false [retryExProp] [retryExGroup]).jsonPublished =
      some "\x7b\"p\":5\x7d" ∧
    ((tracklePropertiesTick 1000 false false [retryExProp] [retryExGroup]).props.getD 0
        Prop_t.zero).changed = true ∧
    ((tracklePropertiesTick 1000 false false [retryExProp] [retryExGroup]).props.getD 0
        Prop_t.zero).lastPubValue = 5 ∧
    isGroupDue 2000 false
      ((tracklePropertiesTick 1000 false false [retryExProp] [retryExGroup]).propGroups.getD 0
        PropGroup_t.zero) = true ∧
    (tracklePropertiesTick 2000 false
        (tracklePropertiesTick 1000 false false [retryExProp] [retryExGroup]).firstRun
        (tracklePropertiesTick 1000 false false [retryExProp] [retryExGroup]).props
        (tracklePropertiesTick 1000 false false [retryExProp]
          [retryExGroup]).propGroups).jsonPublished = none := by
  exact ⟨by decide, by decide, by decide, by decide, by decide⟩

/-! ## Claim C5 -/

/-- Writing one slot leaves every other getD unchanged. -/
theorem getD_set_ne {α : Type} (l : List α) (i j : Nat) (x d : α) (h : i ≠ j) :
    (l.set i x).getD j d = l.getD j d := by
  rcases Nat.lt_or_ge j l.length with hj | hj
  · rw [List.getD_eq_getElem _ _ (by simpa using hj), List.getD_eq_getElem _ _ hj,
      List.getElem_set_ne h]
  · rw [List.getD_eq_default _ _ (by simpa using hj), List.getD_eq_default _ _ hj]

/-- Reading back a slot just written in range. -/
theorem getD_set_self_of_lt {α : Type} (l : List α) (i : Nat) (x d : α)
    (h : i < l.length) : (l.set i x).getD i d = x := by
  rw [List.getD_eq_getElem _ _ (by simpa using h), List.getElem_set_self]

/-- Reading the debStepped slot yields the debounce-promoted property: when
the write fired, the slot was in range (an out-of-range getD is the zero
property, which is never debouncing). -/
theorem debStep_getD_self (nowMs : Nat) (props : List Prop_t) (i : Nat) :
    (debStep nowMs props i).getD i Prop_t.zero =
      promoteDebounce nowMs (props.getD i Prop_t.zero) := by
  unfold debStep promoteDebounce
  split
  case isTrue h =>
    have hlt : i < props.length := by
      rcases Nat.lt_or_ge i props.length with h2 | h2
      · exact h2
      · rw [List.getD_eq_default _ _ h2] at h
        simp [Prop_t.zero] at h
    exact getD_set_self_of_lt _ _ _ _ hlt
  case isFalse h =>
    rfl

/-- debStep leaves every other slot unchanged. -/
theorem debStep_getD_ne (nowMs : Nat) (props : List Prop_t) (i j : Nat)
    (h : i ≠ j) :
    (debStep nowMs props i).getD j Prop_t.zero = props.getD j Prop_t.zero := by
  unfold debStep
  split
  · exact getD_set_ne _ _ _ _ _ h
  · rfl

/-- Normal form of processMember: debounce-promote the slot, then stage by
the line-210 condition evaluated on the promoted property. -/
theorem processMember_spec (nowMs : Nat) (fr oic : Bool) (acc : TickAcc)
    (i : Nat) :
    processMember nowMs fr oic acc i =
      if stagePropCond fr oic (promoteDebounce nowMs (acc.props.getD i Prop_t.zero)) = true then
        { props := (debStep nowMs acc.props i).set i
            (updateLastSentToSetValue
              ({ promoteDebounce nowMs (acc.props.getD i Prop_t.zero) with
                 setToPublish := true })),
          jsonBuffer := appendPropertyToJsonString
            (if acc.propsToPublish then acc.jsonBuffer else acc.jsonBuffer ++ "\x7b")
            (promoteDebounce nowMs (acc.props.getD i Prop_t.zero)),
          propsToPublish := true }
      else { acc with props := debStep nowMs acc.props i } := by
  unfold processMember
  rw [debStep_getD_self nowMs acc.props i]

/-- processMember leaves every slot other than its member unchanged. -/
theorem processMember_getD_ne (nowMs : Nat) (fr oic : Bool) (acc : TickAcc)
    (i j : Nat) (h : i ≠ j) :
    (processMember nowMs fr oic acc i).props.getD j Prop_t.zero =
      acc.props.getD j Prop_t.zero := by
  rw [processMember_spec]
  split
  · dsimp only
    rw [getD_set_ne _ _ _ _ _ h, debStep_getD_ne nowMs acc.props i j h]
  · dsimp only
    rw [debStep_getD_ne nowMs acc.props i j h]

/-- The buffer-and-flag effect of processMember is pushEntry under the
staging condition of the promoted member. -/
theorem processMember_pair (nowMs : Nat) (fr oic : Bool) (acc : TickAcc)
    (i : Nat) :
    ((processMember nowMs fr oic acc i).jsonBuffer,
      (processMember nowMs fr oic acc i).propsToPublish) =
      if stagePropCond fr oic (promoteDebounce nowMs (acc.props.getD i Prop_t.zero)) = true then
        pushEntry (acc.jsonBuffer, acc.propsToPublish)
          (propJsonEntry (promoteDebounce nowMs (acc.props.getD i Prop_t.zero)))
      else (acc.jsonBuffer, acc.propsToPublish) := by
  rw [processMember_spec]
  by_cases hst : stagePropCond fr oic
      (promoteDebounce nowMs (acc.props.getD i Prop_t.zero)) = true
  · rw [if_pos hst, if_pos hst]
    rfl
  · rw [if_neg hst, if_neg hst]

/-- Folding processMember over a duplicate-free member list whose slots agree
with a reference array props0: the buffer/flag pair evolves by pushEntry over
exactly the claim-side staged entries computed on props0, and every slot
outside the list is untouched. -/
theorem foldl_processMember_spec (nowMs : Nat) (fr oic : Bool)
    (is : List Nat) :
    ∀ (acc : TickAcc) (props0 : List Prop_t), is.Nodup →
      (∀ i ∈ is, acc.props.getD i Prop_t.zero = props0.getD i Prop_t.zero) →
      (((is.foldl (processMember nowMs fr oic) acc).jsonBuffer,
        (is.foldl (processMember nowMs fr oic) acc).propsToPublish) =
        ((is.filter (fun i => claimStagesMember nowMs fr oic props0 i)).map
          (fun i => claimMemberEntry nowMs props0 i)).foldl pushEntry
            (acc.jsonBuffer, acc.propsToPublish)) ∧
      (∀ j, j ∉ is →
        (is.foldl (processMember nowMs fr oic) acc).props.getD j Prop_t.zero =
          acc.props.getD j Prop_t.zero) := by
  induction is with
  | nil =>
    intro acc props0 _ _
    exact ⟨rfl, fun j _ => rfl⟩
  | cons i t ih =>
    intro acc props0 hnd hagree
    have hii := hagree i (List.mem_cons_self i t)
    have hnd2 := List.nodup_cons.mp hnd
    have hagree2 : ∀ i2 ∈ t,
        (processMember nowMs fr oic acc i).props.getD i2 Prop_t.zero =
          props0.getD i2 Prop_t.zero := by
      intro i2 hi2
      rw [processMember_getD_ne nowMs fr oic acc i i2 (fun he => hnd2.1 (he ▸ hi2))]
      exact hagree i2 (List.mem_cons_of_mem _ hi2)
    obtain ⟨hbuf, hframe⟩ := ih (processMember nowMs fr oic acc i) props0 hnd2.2 hagree2
    constructor
    · simp only [List.foldl_cons]
      rw [hbuf, processMember_pair]
      have hcs : claimStagesMember nowMs fr oic props0 i =
          stagePropCond fr oic (promoteDebounce nowMs (acc.props.getD i Prop_t.zero)) := by
        unfold claimStagesMember
        rw [hii]
      have hcm : claimMemberEntry nowMs props0 i =
          propJsonEntry (promoteDebounce nowMs (acc.props.getD i Prop_t.zero)) := by
        unfold claimMemberEntry
        rw [hii]
      rw [← hcs, ← hcm, List.filter_cons]
      by_cases hst : claimStagesMember nowMs fr oic props0 i = true
      · rw [if_pos hst, if_pos hst, List.map_cons, List.foldl_cons]
      · rw [if_neg hst, if_neg hst]
    · intro j hj
      simp only [List.foldl_cons]
      rw [hframe j (fun hjt => hj (List.mem_cons_of_mem _ hjt))]
      exact processMember_getD_ne nowMs fr oic acc i j
        (fun he => hj (he ▸ List.mem_cons_self i t))

/-- Folding the per-group staging over the group list: the buffer/flag pair
evolves by pushEntry over the claim-side staged entries of all due groups,
and every slot outside the due members is untouched. -/
theorem foldl_groups_spec (nowMs : Nat) (fr : Bool) (gs : List PropGroup_t) :
    ∀ (acc : TickAcc) (props0 : List Prop_t),
      (dueMemberIndexes nowMs fr gs).Nodup →
      (∀ i ∈ dueMemberIndexes nowMs fr gs,
        acc.props.getD i Prop_t.zero = props0.getD i Prop_t.zero) →
      (((gs.foldl (fun a g => if isGroupDue nowMs fr g then
          g.propsIndexes.foldl (processMember nowMs fr g.onlyIfChanged) a
          else a) acc).jsonBuffer,
        (gs.foldl (fun a g => if isGroupDue nowMs fr g then
          g.propsIndexes.foldl (processMember nowMs fr g.onlyIfChanged) a
          else a) acc).propsToPublish) =
        (claimStagedEntries nowMs fr props0 gs).foldl pushEntry
          (acc.jsonBuffer, acc.propsToPublish)) ∧
      (∀ j, j ∉ dueMemberIndexes nowMs fr gs →
        (gs.foldl (fun a g => if isGroupDue nowMs fr g then
          g.propsIndexes.foldl (processMember nowMs fr g.onlyIfChanged) a
          else a) acc).props.getD j Prop_t.zero = acc.props.getD j Prop_t.zero) := by
  induction gs with
  | nil =>
    intro acc props0 _ _
    exact ⟨rfl, fun j _ => rfl⟩
  | cons g gt ih =>
    intro acc props0 hnd hagree
    by_cases hdue : isGroupDue nowMs fr g = true
    · have hsplit : dueMemberIndexes nowMs fr (g :: gt) =
          g.propsIndexes ++ dueMemberIndexes nowMs fr gt := by
        unfold dueMemberIndexes
        rw [List.filter_cons_of_pos hdue]
        simp
      rw [hsplit] at hnd hagree
      have hnd3 := List.nodup_append.mp hnd
      obtain ⟨hbufg, hframeg⟩ := foldl_processMember_spec nowMs fr g.onlyIfChanged
        g.propsIndexes acc props0 hnd3.1
        (fun i hi => hagree i (List.mem_append_left _ hi))
      have hagree2 : ∀ i ∈ dueMemberIndexes nowMs fr gt,
          (g.propsIndexes.foldl (processMember nowMs fr g.onlyIfChanged)
            acc).props.getD i Prop_t.zero = props0.getD i Prop_t.zero := by
        intro i hi
        rw [hframeg i (fun hig => hnd3.2.2 hig hi)]
        exact hagree i (List.mem_append_right _ hi)
      obtain ⟨hbuf2, hframe2⟩ := ih
        (g.propsIndexes.foldl (processMember nowMs fr g.onlyIfChanged) acc)
        props0 hnd3.2.1 hagree2
      have hentries : claimStagedEntries nowMs fr props0 (g :: gt) =
          ((g.propsIndexes.filter
              (fun i => claimStagesMember nowMs fr g.onlyIfChanged props0 i)).map
            (fun i => claimMemberEntry nowMs props0 i)) ++
            claimStagedEntries nowMs fr props0 gt := by
        unfold claimStagedEntries
        rw [List.filter_cons_of_pos hdue]
        simp
      constructor
      · simp only [List.foldl_cons]
        rw [if_pos hdue, hbuf2, hbufg, hentries, List.foldl_append]
      · intro j hj
        rw [hsplit] at hj
        simp only [List.foldl_cons]
        rw [if_pos hdue,
          hframe2 j (fun hjt => hj (List.mem_append_right _ hjt))]
        exact hframeg j (fun hjg => hj (List.mem_append_left _ hjg))
    · have hdue2 : isGroupDue nowMs fr g = false := by
        rcases hx : isGroupDue nowMs fr g
        · rfl
        · exact absurd hx hdue
      have hsplit : dueMemberIndexes nowMs fr (g :: gt) =
          dueMemberIndexes nowMs fr gt := by
        unfold dueMemberIndexes
        rw [List.filter_cons]
        simp [hdue2]
      rw [hsplit] at hnd hagree
      obtain ⟨hbuf2, hframe2⟩ := ih acc props0 hnd hagree
      have hentries : claimStagedEntries nowMs fr props0 (g :: gt) =
          claimStagedEntries nowMs fr props0 gt := by
        unfold claimStagedEntries
        rw [List.filter_cons]
        simp [hdue2]
      constructor
      · simp only [List.foldl_cons]
        rw [if_neg hdue, hbuf2, hentries]
      · intro j hj
        simp only [List.foldl_cons]
        rw [if_neg hdue]
        exact hframe2 j (hsplit ▸ hj)

/-- Every JSON member is a nonempty string (it starts with a quoted key). -/
theorem propJsonEntry_length_pos (p : Prop_t) : 0 < (propJsonEntry p).length := by
  have hq : ("\"" : String).length = 1 := rfl
  have hc : (":" : String).length = 1 := rfl
  unfold propJsonEntry jsonQuote
  cases hs : p.setStringValue
  · split_ifs <;> simp only [String.length_append, hq, hc] <;> omega
  · simp only [String.length_append, hq, hc]
    omega

/-- Appending one member to a nonempty comma-joined list. -/
theorem joinCommaSep_append_single (l : List String) (e : String) (h : l ≠ []) :
    joinCommaSep (l ++ [e]) = joinCommaSep l ++ "," ++ e := by
  induction l with
  | nil => exact absurd rfl h
  | cons a t ih =>
    cases t with
    | nil => simp [joinCommaSep]
    | cons b u =>
      have h2 := ih (by simp)
      simp only [List.cons_append] at h2 ⊢
      simp only [joinCommaSep]
      rw [h2]
      simp [String.append_assoc]

/-- A nonempty comma-joined list of nonempty members is nonempty. -/
theorem joinCommaSep_length_pos (l : List String) (h : l ≠ [])
    (hlen : ∀ e ∈ l, 0 < e.length) : 0 < (joinCommaSep l).length := by
  have hc : ("," : String).length = 1 := rfl
  cases l with
  | nil => exact absurd rfl h
  | cons a t =>
    cases t with
    | nil => exact hlen a (by simp)
    | cons b u =>
      simp only [joinCommaSep, String.length_append, hc]
      have := hlen a (by simp)
      omega

/-- Folding pushEntry onto an already-open object comma-appends the members. -/
theorem foldl_pushEntry_closed (es : List String) :
    ∀ (pre : List String), pre ≠ [] → (∀ e ∈ pre ++ es, 0 < e.length) →
      es.foldl pushEntry ("\x7b" ++ joinCommaSep pre, true) =
        ("\x7b" ++ joinCommaSep (pre ++ es), true) := by
  induction es with
  | nil =>
    intro pre _ _
    simp
  | cons e t ih =>
    intro pre hpre hlen
    have hpos : ("\x7b" ++ joinCommaSep pre).length > 1 := by
      have h1 : ("\x7b" : String).length = 1 := rfl
      have h2 := joinCommaSep_length_pos pre hpre
        (fun x hx => hlen x (List.mem_append_left _ hx))
      simp only [String.length_append, h1]
      omega
    have hstep : pushEntry ("\x7b" ++ joinCommaSep pre, true) e =
        ("\x7b" ++ joinCommaSep (pre ++ [e]), true) := by
      have hred : pushEntry ("\x7b" ++ joinCommaSep pre, true) e =
          ((if ("\x7b" ++ joinCommaSep pre).length > 1 then
              ("\x7b" ++ joinCommaSep pre) ++ "," else "\x7b" ++ joinCommaSep pre) ++ e,
            true) := rfl
      rw [hred, if_pos hpos, joinCommaSep_append_single pre e hpre]
      simp [String.append_assoc]
    simp only [List.foldl_cons]
    rw [hstep, ih (pre ++ [e]) (by simp)
      (by intro x hx; apply hlen; simpa [List.append_assoc] using hx)]
    simp

/-- Folding pushEntry from the reset buffer: an empty member list leaves the
buffer closed, a nonempty one opens the object and comma-joins the members. -/
theorem foldl_pushEntry_from_empty (es : List String)
    (hlen : ∀ e ∈ es, 0 < e.length) :
    es.foldl pushEntry ("", false) =
      if es = [] then (("" : String), false)
      else ("\x7b" ++ joinCommaSep es, true) := by
  cases es with
  | nil => rfl
  | cons e t =>
    rw [if_neg (by simp)]
    simp only [List.foldl_cons]
    have hstep : pushEntry ("", false) e = ("\x7b" ++ joinCommaSep [e], true) := by
      have hred : pushEntry ("", false) e =
          ((if ("" ++ "\x7b").length > 1 then ("" ++ "\x7b") ++ ","
            else "" ++ "\x7b") ++ e, true) := rfl
      rw [hred, if_neg (by decide), String.empty_append]
      rfl
    rw [hstep, foldl_pushEntry_closed t [e] (by simp) (by simpa using hlen)]
    simp

/-- Every claim-side staged entry is nonempty. -/
theorem claimStagedEntries_length_pos (nowMs : Nat) (fr : Bool)
    (props : List Prop_t) (gs : List PropGroup_t) :
    ∀ e ∈ claimStagedEntries nowMs fr props gs, 0 < e.length := by
  intro e he
  unfold claimStagedEntries at he
  simp only [List.mem_flatMap, List.mem_map, List.mem_filter] at he
  obtain ⟨g, hg, i, hi, rfl⟩ := he
  exact propJsonEntry_length_pos _

/-- C5: on a scheduler tick whose due groups have pairwise-distinct members,
a member of a due group is staged exactly by the staging condition — not
disabled, and (changed with a value differing from the last published one, or
always-publish policy, or first tick) — evaluated after debounce promotion on
the pre-tick state; the published payload is exactly the flat JSON object of
the staged members of all due groups, in scheduler order, and nothing is
published when no member stages, so no other registered property appears. -/
theorem tick_payload_batch_composition (nowMs : Nat) (publishOk firstRun : Bool)
    (props : List Prop_t) (groups : List PropGroup_t)
    (hnd : (dueMemberIndexes nowMs firstRun groups).Nodup) :
    (tracklePropertiesTick nowMs publishOk firstRun props groups).jsonPublished =
      if claimStagedEntries nowMs firstRun props groups = [] then none
      else some ("\x7b" ++ joinCommaSep (claimStagedEntries nowMs firstRun props groups)
        ++ "\x7d") := by
  obtain ⟨hpair, -⟩ := foldl_groups_spec nowMs firstRun groups
    { props := props, jsonBuffer := "", propsToPublish := false } props hnd
    (fun i _ => rfl)
  rw [foldl_pushEntry_from_empty _
    (claimStagedEntries_length_pos nowMs firstRun props groups)] at hpair
  have hconn : tickStageGroups nowMs firstRun props groups =
      groups.foldl (fun a g => if isGroupDue nowMs firstRun g then
        g.propsIndexes.foldl (processMember nowMs firstRun g.onlyIfChanged) a
        else a) { props := props, jsonBuffer := "", propsToPublish := false } := rfl
  rw [← hconn] at hpair
  simp only [tracklePropertiesTick]
  by_cases hes : claimStagedEntries nowMs firstRun props groups = []
  · rw [if_pos hes] at hpair ⊢
    have hptp : (tickStageGroups nowMs firstRun props groups).propsToPublish = false :=
      congrArg Prod.snd hpair
    rw [hptp]
    simp
  · rw [if_neg hes] at hpair ⊢
    have hptp : (tickStageGroups nowMs firstRun props groups).propsToPublish = true :=
      congrArg Prod.snd hpair
    have hbuf : (tickStageGroups nowMs firstRun props groups).jsonBuffer =
        "\x7b" ++ joinCommaSep (claimStagedEntries nowMs firstRun props groups) :=
      congrArg Prod.fst hpair
    rw [hptp, hbuf]
    simp

/-- Witness for C5: two due non-overlapping groups at 2000 ms publish exactly
their changed members as one flat object. -/
theorem tick_payload_batch_composition_witness :
    (tracklePropertiesTick 2000 true false batchExProps batchExGroups).jsonPublished =
      some "\x7b\"speed\":120,\"temp\":87.50\x7d" :=
  (tick_payload_batch_composition 2000 true false batchExProps batchExGroups
      (by decide)).trans (by decide)
